import Mathlib

/-!
# Verification of `src/standard_v1.py` (`StandardBot`)

Shallow embedding of the single Python class `StandardBot`.  Floats are
modelled by `ℚ` (all constants in the source are decimal literals, so the
arithmetic is exact); the `signal` dict is a record of optional fields
(`none` = key absent); the ambient random draws (`random.random()`,
`random.uniform(0.015, 0.035)`) and `datetime.utcnow()` are passed to
`trade`/`reset_daily_stats` as explicit arguments; the human-readable
result strings of `trade` are modelled as a tagged variant carrying the
numbers that the f-strings interpolate.  Methods become functions from the
bot record (Python `self`) to results, with mutation modelled as returning
the updated record.
-/

set_option maxHeartbeats 1000000

namespace GptStrategies

/-- `trade_record['type']`: the Python code stores the strings `'WIN'` / `'LOSS'`. -/
inductive TradeType
  | WIN
  | LOSS
deriving DecidableEq, Repr

/-- One entry of `self.trade_history`.  The Python dict uses keys
`profit`/`profit_pct` on wins and `loss`/`loss_pct` on losses; `amount` and
`pct` hold whichever of the two the branch stored. -/
structure TradeRecord where
  timestamp : String
  ttype : TradeType
  size : ℚ
  amount : ℚ
  pct : ℚ
  confidence : ℚ
  regime : String
deriving DecidableEq, Repr

/-- One entry of `self.daily_pnl_history` (`ret` is the dict key `return`,
a Lean keyword). -/
structure DailyRecord where
  date : String
  ret : ℚ
  profit : ℚ
  trades : ℕ
deriving DecidableEq, Repr

/-- The recognized `**kwargs` options of `StandardBot.__init__`, already
resolved against the `kwargs.get(..., default)` defaults used in the source;
the field default values are exactly those defaults, so `{}` is the
configuration obtained when no keyword argument is passed. -/
structure Config where
  target_return : ℚ := 0.02
  max_target_return : ℚ := 0.05
  max_drawdown : ℚ := 0.05
  stop_loss : ℚ := 0.01
  max_risk : ℚ := 0.03
  max_daily_trades : ℕ := 12
  adaptive_sizing : Bool := true
  confidence_threshold : ℚ := 0.65
  regime_adaptation : Bool := true
deriving DecidableEq, Repr

/-- The external `signal` mapping.  A field is `none` when the key is absent
from the dict; the `signal.get(key, default)` fallbacks of the source appear
at each use site, exactly as in the Python code. -/
structure Signal where
  score : Option ℚ := none
  volatility : Option ℚ := none
  trend : Option ℚ := none
  support_resistance : Option ℚ := none
  ai_confidence : Option ℚ := none
  regime : Option String := none
  volume_ratio : Option ℚ := none
  spread : Option ℚ := none
  win_probability : Option ℚ := none
  avg_win : Option ℚ := none
  momentum : Option ℚ := none
  position_size : Option ℚ := none
deriving DecidableEq, Repr

/-- The mutable attribute record built by `StandardBot.__init__`
(every `self.x` attribute, in source order). -/
structure StandardBot where
  capital : ℚ
  initial_capital : ℚ
  target_return : ℚ
  max_target_return : ℚ
  max_dd : ℚ
  daily_profit : ℚ
  stop_loss : ℚ
  max_risk_per_trade : ℚ
  trades_today : ℕ
  max_trades_daily : ℕ
  emergency_stop_dd : ℚ
  size_reduction_dd : ℚ
  use_ai_sizing : Bool
  confidence_threshold : ℚ
  regime_adaptation : Bool
  trade_history : List TradeRecord
  daily_pnl_history : List DailyRecord
  best_daily_return : ℚ
  worst_daily_return : ℚ
  peak_capital : ℚ
deriving DecidableEq, Repr

namespace StandardBot

/-- `StandardBot.__init__(capital, risk_mode="standard", **kwargs)`.
The `risk_mode` parameter is never read by the class, so it is omitted.
No validation of `capital` is performed, exactly as in the source. -/
def init (capital : ℚ) (kwargs : Config) : StandardBot :=
  { capital := capital
    initial_capital := capital
    target_return := kwargs.target_return
    max_target_return := kwargs.max_target_return
    max_dd := kwargs.max_drawdown
    daily_profit := 0
    stop_loss := kwargs.stop_loss
    max_risk_per_trade := kwargs.max_risk
    trades_today := 0
    max_trades_daily := kwargs.max_daily_trades
    emergency_stop_dd := 0.045
    size_reduction_dd := 0.035
    use_ai_sizing := kwargs.adaptive_sizing
    confidence_threshold := kwargs.confidence_threshold
    regime_adaptation := kwargs.regime_adaptation
    trade_history := []
    daily_pnl_history := []
    best_daily_return := 0
    worst_daily_return := 0
    peak_capital := capital }

/-- The `regime_requirements` dict lookup of `check_trade_conditions`,
including the `.get(regime, {'min_score': 0.6, 'min_trend': 0.35})`
fallback; returns `(min_score, min_trend)`. -/
def regime_requirements (regime : String) : ℚ × ℚ :=
  if regime = "trending_bull" then (0.55, 0.3)
  else if regime = "trending_bear" then (0.65, 0.4)
  else if regime = "sideways" then (0.75, 0.5)
  else if regime = "high_volatility" then (0.8, 0.6)
  else if regime = "low_volatility" then (0.5, 0.25)
  else (0.6, 0.35)

/-- `StandardBot.check_trade_conditions(self, signal)`. -/
def check_trade_conditions (self : StandardBot) (signal : Signal) : Bool :=
  let score := signal.score.getD 0
  let volatility := signal.volatility.getD 0
  let trend := signal.trend.getD 0
  let support_resistance := signal.support_resistance.getD 0
  let ai_confidence := signal.ai_confidence.getD 0.5
  let regime := signal.regime.getD "unknown"
  let score_ok := decide (score > 0.6)
  let vol_ok := decide (0.015 < volatility ∧ volatility < 0.12)
  let trend_ok := decide (|trend| > 0.35)
  let sr_ok := decide (support_resistance > 0.5)
  let confidence_ok := decide (ai_confidence ≥ self.confidence_threshold)
  let score_ok := if self.regime_adaptation then
      decide (score > (regime_requirements regime).1)
    else score_ok
  let trend_ok := if self.regime_adaptation then
      decide (|trend| > (regime_requirements regime).2)
    else trend_ok
  let volume_ok := decide (signal.volume_ratio.getD 1.0 > 0.8)
  let spread_ok := decide (signal.spread.getD 0.001 < 0.005)
  score_ok && vol_ok && trend_ok && sr_ok && confidence_ok && volume_ok && spread_ok

/-- `StandardBot.calculate_position_size(self, signal)`.  Note that the
source computes `daily_mult` but does not include it in the `final_size`
product (line 114 of `standard_v1.py`); the embedding reproduces that
faithfully, so `daily_mult` is a dead binding here too. -/
def calculate_position_size (self : StandardBot) (signal : Signal) : ℚ :=
  let base_size :=
    if self.use_ai_sizing ∧ signal.position_size.isSome then
      signal.position_size.getD 0 * self.capital
    else
      let win_rate := signal.win_probability.getD 0.65
      let avg_win := signal.avg_win.getD 0.025
      let avg_loss := self.stop_loss
      let kelly := (win_rate * avg_win - (1 - win_rate) * avg_loss) / avg_win
      let kelly := max 0.01 (min kelly self.max_risk_per_trade)
      self.capital * kelly
  let confidence := signal.ai_confidence.getD 0.5
  let confidence_mult := 0.5 + confidence * 0.5
  let daily_return := if self.capital > 0 then self.daily_profit / self.capital else 0
  let daily_mult : ℚ :=
    if daily_return ≥ self.target_return * 0.8 then 0.5
    else if daily_return ≥ self.target_return * 0.6 then 0.7
    else 1.0
  let current_dd := (self.initial_capital - self.capital) / self.initial_capital
  let dd_mult := max 0.5 (1 - current_dd * 2)
  let peak_distance :=
    if self.peak_capital > 0 then
      (self.peak_capital - self.capital) / self.peak_capital
    else 0
  let peak_mult := max 0.6 (1 - peak_distance)
  let size_reduction_factor : ℚ :=
    if current_dd > self.size_reduction_dd then 0.6 else 1.0
  let final_size := base_size * confidence_mult * dd_mult * peak_mult * size_reduction_factor
  let final_size := min final_size (self.capital * 0.04)
  let final_size := max final_size (self.capital * 0.005)
  final_size

/-- The `regime_adjustments` dict lookup of `trade`, with the
`.get(regime, 1.0)` fallback. -/
def regime_adjustments (regime : String) : ℚ :=
  if regime = "trending_bull" then 1.1
  else if regime = "trending_bear" then 1.05
  else if regime = "sideways" then 0.95
  else if regime = "high_volatility" then 0.85
  else if regime = "low_volatility" then 1.15
  else 1.0

/-- The `regime_profit_bonus` dict lookup of the winning branch of `trade`,
with the `.get(regime, 1.0)` fallback. -/
def regime_profit_bonus (regime : String) : ℚ :=
  if regime = "trending_bull" then 1.2
  else if regime = "trending_bear" then 1.1
  else if regime = "sideways" then 0.9
  else if regime = "high_volatility" then 1.1
  else if regime = "low_volatility" then 1.0
  else 1.0

/-- The `regime_loss_adj` dict lookup of the losing branch of `trade`,
with the `.get(regime, 1.0)` fallback. -/
def regime_loss_adj (regime : String) : ℚ :=
  if regime = "trending_bull" then 0.9
  else if regime = "trending_bear" then 1.0
  else if regime = "sideways" then 1.1
  else if regime = "high_volatility" then 1.3
  else if regime = "low_volatility" then 0.8
  else 1.0

end StandardBot

/-- The return value of `StandardBot.trade`, one constructor per f-string of
the source, carrying the numbers the string interpolates:
`limitReached` = "⏸️ Daily trade limit reached";
`minTargetAchieved` = "✅ Minimum target achieved: ... (continuing to max target: ...)";
`maxTargetAchieved` = "🎯 Maximum daily target achieved: ...";
`drawdownExceeded` = "🛑 Drawdown limit exceeded: ... (Max: ...)";
`filtersNotMet` = "🔍 Skipped: Conservative filters not met";
`win`/`loss` = the "✅ Standard WIN ..." / "❌ Standard LOSS ..." reports
(amount, percentage, resulting capital, resulting daily ratio). -/
inductive TradeResult
  | limitReached
  | minTargetAchieved (daily_return max_target_return : ℚ)
  | maxTargetAchieved (daily_return : ℚ)
  | drawdownExceeded (current_dd max_dd : ℚ)
  | filtersNotMet
  | win (profit final_profit_pct capital daily : ℚ)
  | loss (loss adjusted_loss_pct capital daily : ℚ)
deriving DecidableEq, Repr

namespace StandardBot

/-- `StandardBot.trade(self, signal)`.  The two ambient random draws are
explicit arguments: `rand` is the `random.random()` value compared against
`success_prob`, and `uwin` is the `random.uniform(0.015, 0.035)` value used
as `base_profit_pct` in the winning branch; `now` stands for
`datetime.utcnow().isoformat()`.  Returns the result message together with
the updated bot record. -/
def trade (self : StandardBot) (signal : Signal) (rand uwin : ℚ) (now : String) :
    TradeResult × StandardBot :=
  if self.trades_today ≥ self.max_trades_daily then
    (TradeResult.limitReached, self)
  else
    let daily_return := if self.capital > 0 then self.daily_profit / self.capital else 0
    let target_achieved := daily_return ≥ self.target_return
    if target_achieved ∧ daily_return < self.max_target_return then
      (TradeResult.minTargetAchieved daily_return self.max_target_return, self)
    else if daily_return ≥ self.max_target_return then
      (TradeResult.maxTargetAchieved daily_return, self)
    else
      let current_dd := (self.initial_capital - self.capital) / self.initial_capital
      if current_dd > self.max_dd then
        (TradeResult.drawdownExceeded current_dd self.max_dd, self)
      else if ¬ check_trade_conditions self signal then
        (TradeResult.filtersNotMet, self)
      else
        let position_size := calculate_position_size self signal
        let confidence := signal.ai_confidence.getD 0.5
        let momentum := signal.momentum.getD 0.5
        let regime := signal.regime.getD "unknown"
        let base_success_prob := 0.55 + confidence * 0.25
        let success_prob := base_success_prob * regime_adjustments regime
        let success_prob := min 0.85 (max 0.50 success_prob)
        if rand < success_prob then
          let base_profit_pct := uwin
          let confidence_bonus := 1 + (confidence - 0.5) * 0.2
          let final_profit_pct := base_profit_pct * confidence_bonus * regime_profit_bonus regime
          let final_profit_pct := min 0.045 final_profit_pct
          let profit := position_size * final_profit_pct
          let capital := self.capital + profit
          let daily_profit := self.daily_profit + profit
          let peak_capital := if capital > self.peak_capital then capital else self.peak_capital
          let trade_record : TradeRecord :=
            { timestamp := now, ttype := TradeType.WIN, size := position_size,
              amount := profit, pct := final_profit_pct,
              confidence := confidence, regime := regime }
          (TradeResult.win profit final_profit_pct capital (daily_profit / capital),
           { self with capital := capital, daily_profit := daily_profit,
                       peak_capital := peak_capital,
                       trades_today := self.trades_today + 1,
                       trade_history := self.trade_history ++ [trade_record] })
        else
          let base_loss_pct := self.stop_loss
          let adjusted_loss_pct := base_loss_pct * regime_loss_adj regime
          let adjusted_loss_pct := min 0.025 adjusted_loss_pct
          let loss := position_size * adjusted_loss_pct
          let capital := self.capital - loss
          let daily_profit := self.daily_profit - loss
          let trade_record : TradeRecord :=
            { timestamp := now, ttype := TradeType.LOSS, size := position_size,
              amount := loss, pct := adjusted_loss_pct,
              confidence := confidence, regime := regime }
          (TradeResult.loss loss adjusted_loss_pct capital (daily_profit / capital),
           { self with capital := capital, daily_profit := daily_profit,
                       trades_today := self.trades_today + 1,
                       trade_history := self.trade_history ++ [trade_record] })

/-- `StandardBot.reset_daily_stats(self)`; `today` stands for
`datetime.utcnow().strftime('%Y-%m-%d')`. -/
def reset_daily_stats (self : StandardBot) (today : String) : StandardBot :=
  let self :=
    if self.capital > 0 then
      let daily_return := self.daily_profit / self.capital
      { self with
          daily_pnl_history := self.daily_pnl_history ++
            [{ date := today, ret := daily_return,
               profit := self.daily_profit, trades := self.trades_today }],
          best_daily_return := max self.best_daily_return daily_return,
          worst_daily_return := min self.worst_daily_return daily_return }
    else self
  { self with daily_profit := 0, trades_today := 0 }

/-- The numeric content of the snapshot dict returned by
`StandardBot.get_status`.  The percent fields of the source are f-string
formattings of these numbers; the constant fields (`strategy`,
`ai_enhanced`, `risk_level`, `timestamp`) carry no state and are omitted. -/
structure Status where
  capital : ℚ
  initial_capital : ℚ
  total_return : ℚ
  daily_return : ℚ
  daily_min_target : ℚ
  daily_max_target : ℚ
  target_progress : ℚ
  drawdown : ℚ
  trades_today : ℕ
  total_trades : ℕ
  win_rate : ℚ
  avg_daily_return : ℚ
  best_daily : ℚ
  worst_daily : ℚ
  peak_capital : ℚ
deriving DecidableEq, Repr

/-- `StandardBot.get_status(self)`: a pure read, modelled as a function of
the bot record only (no updated record is returned because the source
mutates nothing). -/
def get_status (self : StandardBot) : Status :=
  let current_dd :=
    if self.initial_capital > 0 then
      (self.initial_capital - self.capital) / self.initial_capital
    else 0
  let total_return :=
    if self.initial_capital > 0 then
      (self.capital - self.initial_capital) / self.initial_capital
    else 0
  let daily_return := if self.capital > 0 then self.daily_profit / self.capital else 0
  let recent_trades :=
    if self.trade_history.length ≥ 30 then
      self.trade_history.drop (self.trade_history.length - 30)
    else self.trade_history
  let wins := (recent_trades.filter (fun t => t.ttype = TradeType.WIN)).length
  let win_rate : ℚ :=
    if recent_trades ≠ [] then (wins : ℚ) / (recent_trades.length : ℚ) else 0
  let avg_daily_return : ℚ :=
    if self.daily_pnl_history ≠ [] then
      (self.daily_pnl_history.map DailyRecord.ret).sum / (self.daily_pnl_history.length : ℚ)
    else 0
  { capital := self.capital
    initial_capital := self.initial_capital
    total_return := total_return
    daily_return := daily_return
    daily_min_target := self.target_return
    daily_max_target := self.max_target_return
    target_progress := if self.target_return > 0 then daily_return / self.target_return else 0
    drawdown := current_dd
    trades_today := self.trades_today
    total_trades := self.trade_history.length
    win_rate := win_rate
    avg_daily_return := avg_daily_return
    best_daily := self.best_daily_return
    worst_daily := self.worst_daily_return
    peak_capital := self.peak_capital }

end StandardBot

/-!
## Spec-side definitions

Definitions in this section follow the wording of `spec.md`, not the source;
they exist to be compared against the source embedding above.
-/

namespace StandardBot

/-- The position-size formula as §4.3 of the spec states it: identical to
`calculate_position_size` except that the final product includes
`daily_mult` ("Final size = `base * confidence_mult * daily_mult * dd_mult *
peak_mult * size_reduction_factor`").  The source computes `daily_mult` but
leaves it out of the product; this definition is used to exhibit that
divergence. -/
def spec_calculate_position_size (self : StandardBot) (signal : Signal) : ℚ :=
  let base_size :=
    if self.use_ai_sizing ∧ signal.position_size.isSome then
      signal.position_size.getD 0 * self.capital
    else
      let win_rate := signal.win_probability.getD 0.65
      let avg_win := signal.avg_win.getD 0.025
      let kelly := (win_rate * avg_win - (1 - win_rate) * self.stop_loss) / avg_win
      self.capital * max 0.01 (min kelly self.max_risk_per_trade)
  let confidence_mult := 0.5 + signal.ai_confidence.getD 0.5 * 0.5
  let daily_return := if self.capital > 0 then self.daily_profit / self.capital else 0
  let daily_mult : ℚ :=
    if daily_return ≥ self.target_return * 0.8 then 0.5
    else if daily_return ≥ self.target_return * 0.6 then 0.7
    else 1.0
  let current_dd := (self.initial_capital - self.capital) / self.initial_capital
  let dd_mult := max 0.5 (1 - current_dd * 2)
  let peak_distance :=
    if self.peak_capital > 0 then
      (self.peak_capital - self.capital) / self.peak_capital
    else 0
  let peak_mult := max 0.6 (1 - peak_distance)
  let size_reduction_factor : ℚ :=
    if current_dd > self.size_reduction_dd then 0.6 else 1.0
  let final_size :=
    base_size * confidence_mult * daily_mult * dd_mult * peak_mult * size_reduction_factor
  max (min final_size (self.capital * 0.04)) (self.capital * 0.005)

/-- The regime-dependent score threshold as the spec's table in §4.2 states
it (`min_score` column; unknown/unlisted regime falls back to 0.6). -/
def spec_min_score (regime : String) : ℚ :=
  if regime = "trending_bull" then 0.55
  else if regime = "trending_bear" then 0.65
  else if regime = "sideways" then 0.75
  else if regime = "high_volatility" then 0.8
  else if regime = "low_volatility" then 0.5
  else 0.6

/-- The regime-dependent trend threshold as the spec's table in §4.2 states
it (`min_trend` column; unknown/unlisted regime falls back to 0.35). -/
def spec_min_trend (regime : String) : ℚ :=
  if regime = "trending_bull" then 0.3
  else if regime = "trending_bear" then 0.4
  else if regime = "sideways" then 0.5
  else if regime = "high_volatility" then 0.6
  else if regime = "low_volatility" then 0.25
  else 0.35

/-- The seven filter predicates of §4.2 of the spec, conjoined, with the
documented field defaults (`score`/`volatility`/`trend`/`support_resistance`
default 0, `ai_confidence` 0.5, `regime` "unknown", `volume_ratio` 1.0,
`spread` 0.001) and score/trend thresholds taken from the regime table when
regime adaptation is enabled, else fixed at 0.6 / 0.35. -/
def spec_filter_conditions (self : StandardBot) (signal : Signal) : Prop :=
  (signal.score.getD 0 >
    if self.regime_adaptation then spec_min_score (signal.regime.getD "unknown") else 0.6) ∧
  (0.015 < signal.volatility.getD 0 ∧ signal.volatility.getD 0 < 0.12) ∧
  (|signal.trend.getD 0| >
    if self.regime_adaptation then spec_min_trend (signal.regime.getD "unknown") else 0.35) ∧
  signal.support_resistance.getD 0 > 0.5 ∧
  signal.ai_confidence.getD 0.5 ≥ self.confidence_threshold ∧
  signal.volume_ratio.getD 1.0 > 0.8 ∧
  signal.spread.getD 0.001 < 0.005

end StandardBot

/-- The states reachable from a construction `StandardBot(c₀, **kwargs)` by
the mutating operations.  `trade`'s two random draws are constrained to the
ranges `random.random()` and `random.uniform(0.015, 0.035)` guarantee;
`get_status` returns no state, so it contributes no step. -/
inductive Reachable (c₀ : ℚ) (kwargs : Config) : StandardBot → Prop
  | construct : Reachable c₀ kwargs (StandardBot.init c₀ kwargs)
  | trade_step {self : StandardBot} (signal : Signal) {rand uwin : ℚ} (now : String) :
      Reachable c₀ kwargs self → 0 ≤ rand → rand < 1 →
      0.015 ≤ uwin → uwin ≤ 0.035 →
      Reachable c₀ kwargs (StandardBot.trade self signal rand uwin now).2
  | reset_step {self : StandardBot} (today : String) :
      Reachable c₀ kwargs self →
      Reachable c₀ kwargs (StandardBot.reset_daily_stats self today)

/-- Inductive invariant carried through `Reachable`: the configuration
fields that the peak-capital argument needs are those set at construction,
capital stays positive, and `peak_capital` dominates both `capital` and the
starting capital. -/
def PeakInvariant (c₀ : ℚ) (kwargs : Config) (self : StandardBot) : Prop :=
  self.stop_loss = kwargs.stop_loss ∧
  self.confidence_threshold = kwargs.confidence_threshold ∧
  self.initial_capital = c₀ ∧
  0 < self.capital ∧
  self.capital ≤ self.peak_capital ∧
  c₀ ≤ self.peak_capital

/-!
## Concrete instances used by counterexamples and witnesses
-/

/-- Bot with default options, capital 10000, and a realized daily profit of
200 (so `daily_profit/capital = 0.02 ≥ 0.8 * target_return`). -/
def exStateC1 : StandardBot :=
  { StandardBot.init 10000 {} with daily_profit := 200 }

/-- Signal carrying an explicit position-size fraction of 0.02 and full AI
confidence. -/
def exSignalC1 : Signal := { position_size := some 0.02, ai_confidence := some 1 }

/-- Bot with default options whose daily trade counter has reached the
default limit of 12. -/
def exStateC3 : StandardBot :=
  { StandardBot.init 1000 {} with trades_today := 12 }

/-- Bot with default options, initial capital 1000, current capital 940
(drawdown 6% > max 5%) and a realized daily profit of 94
(daily return 10% ≥ max target 5%). -/
def exStateC4 : StandardBot :=
  { StandardBot.init 1000 {} with capital := 940, daily_profit := 94 }

/-- The spec's own §8 drawdown scenario: initial capital 1000, current
capital 940, nothing earned today. -/
def exStateC4W : StandardBot :=
  { StandardBot.init 1000 {} with capital := 940 }

/-- The accepted signal of the spec's §8 scenario (trending_bull regime,
all seven predicates true). -/
def exSignalOK : Signal :=
  { score := some 0.9, volatility := some 0.05, trend := some 0.5,
    support_resistance := some 0.8, ai_confidence := some 0.9,
    regime := some "trending_bull", volume_ratio := some 1.0, spread := some 0.001 }

/-- Freshly constructed bot: empty trade history. -/
def exStateC8a : StandardBot := StandardBot.init 1000 {}

/-- Bot whose history holds one WIN and one LOSS record. -/
def exStateC8b : StandardBot :=
  { StandardBot.init 1000 {} with
      trade_history :=
        [{ timestamp := "t1", ttype := TradeType.WIN, size := 10, amount := 1,
           pct := 0.02, confidence := 0.9, regime := "trending_bull" },
         { timestamp := "t2", ttype := TradeType.LOSS, size := 10, amount := 1,
           pct := 0.01, confidence := 0.9, regime := "trending_bull" }] }

/-!
## Theorems
-/

open StandardBot

/-- Shared helper: whatever the intermediate multipliers produce, the two
final clamp lines of `calculate_position_size` force the result into
`[0.005 * capital, 0.04 * capital]` whenever `capital > 0`. -/
theorem position_size_clamped (self : StandardBot) (signal : Signal)
    (h : 0 < self.capital) :
    self.capital * 0.005 ≤ calculate_position_size self signal ∧
    calculate_position_size self signal ≤ self.capital * 0.04 := by
  unfold calculate_position_size
  exact ⟨le_max_right _ _, max_le (le_trans (min_le_right _ _) (le_refl _)) (by nlinarith)⟩

/-- Claim C1, settled as a code bug: the claim (and the source's own
comments) state that `daily_mult` scales the position size, but line 114 of
the source omits `daily_mult` from the `final_size` product.  At capital
10000 with daily profit 200 (so `daily_profit/capital = 0.02 ≥
0.8 * target_return`, making `daily_mult = 0.5`) and a signal carrying
`position_size = 0.02`, `ai_confidence = 1`, the code returns 200 while the
claimed formula gives 100. -/
theorem position_size_daily_mult_dead :
    calculate_position_size exStateC1 exSignalC1 = 200 ∧
    spec_calculate_position_size exStateC1 exSignalC1 = 100 ∧
    (200 : ℚ) ≠ 100 := by
  refine ⟨?_, ?_, by norm_num⟩ <;>
    norm_num [calculate_position_size, spec_calculate_position_size,
      exStateC1, exSignalC1, StandardBot.init, min_def, max_def]

/-- Claim C2: for every signal and every state with positive capital, the
value returned by `calculate_position_size` lies within
`[0.005 * capital, 0.04 * capital]` (proved for all states, which covers in
particular every reachable one). -/
theorem calculate_position_size_within_bounds (self : StandardBot) (signal : Signal)
    (h : 0 < self.capital) :
    self.capital * 0.005 ≤ calculate_position_size self signal ∧
    calculate_position_size self signal ≤ self.capital * 0.04 :=
  position_size_clamped self signal h

/-- Witness for C2 at capital 10000 and the spec's §8 scenario signal. -/
theorem calculate_position_size_within_bounds_witness :
    0 < exStateC8a.capital ∧
    (exStateC8a.capital * 0.005 ≤ calculate_position_size exStateC8a exSignalOK ∧
     calculate_position_size exStateC8a exSignalOK ≤ exStateC8a.capital * 0.04) :=
  ⟨by decide, calculate_position_size_within_bounds exStateC8a exSignalOK (by decide)⟩

/-- Claim C3: whenever `trades_today ≥ max_trades_daily`, `trade` returns
the daily-limit message and the bot record — hence every state component
(capital, daily_profit, trades_today, peak_capital, trade_history) — is
returned unchanged, for every signal and every random draw. -/
theorem trade_limit_reached_no_mutation (self : StandardBot) (signal : Signal)
    (rand uwin : ℚ) (now : String)
    (h : self.trades_today ≥ self.max_trades_daily) :
    trade self signal rand uwin now = (TradeResult.limitReached, self) := by
  unfold trade
  exact if_pos h

/-- Witness for C3: a default bot whose counter has reached 12. -/
theorem trade_limit_reached_no_mutation_witness :
    exStateC3.trades_today ≥ exStateC3.max_trades_daily ∧
    trade exStateC3 exSignalOK 0 0.02 "t" = (TradeResult.limitReached, exStateC3) :=
  ⟨by decide, trade_limit_reached_no_mutation exStateC3 exSignalOK 0 0.02 "t" (by decide)⟩

/-- Counterexample to claim C4 as stated: in a state whose drawdown (6%)
exceeds `max_drawdown` (5%) but whose daily return (10%) already meets the
maximum daily target, `trade` returns the maximum-target message, not the
drawdown message — the drawdown gate is evaluated only after the two
daily-target gates. -/
theorem trade_drawdown_gate_shadowed :
    (exStateC4.initial_capital - exStateC4.capital) / exStateC4.initial_capital >
      exStateC4.max_dd ∧
    exStateC4.trades_today < exStateC4.max_trades_daily ∧
    (trade exStateC4 exSignalOK 0 0.015 "t").1 = TradeResult.maxTargetAchieved (1/10) ∧
    TradeResult.maxTargetAchieved (1/10) ≠
      TradeResult.drawdownExceeded
        ((exStateC4.initial_capital - exStateC4.capital) / exStateC4.initial_capital)
        exStateC4.max_dd := by
  refine ⟨by norm_num [exStateC4, StandardBot.init], by decide, ?_, by decide⟩
  norm_num [trade, exStateC4, StandardBot.init, min_def, max_def]

/-- Claim C4 as amended: if additionally the daily trade limit has not been
reached and the daily return (0 when capital ≤ 0) is below both the minimum
and the maximum daily target — i.e. the three gates evaluated before the
drawdown check do not fire — then `current_drawdown > max_drawdown` makes
`trade` return the drawdown message with zero state mutation, regardless of
signal content. -/
theorem trade_drawdown_exceeded_no_mutation (self : StandardBot) (signal : Signal)
    (rand uwin : ℚ) (now : String)
    (h1 : self.trades_today < self.max_trades_daily)
    (h2 : (if self.capital > 0 then self.daily_profit / self.capital else 0) <
      self.target_return)
    (h3 : (if self.capital > 0 then self.daily_profit / self.capital else 0) <
      self.max_target_return)
    (h4 : (self.initial_capital - self.capital) / self.initial_capital > self.max_dd) :
    trade self signal rand uwin now =
      (TradeResult.drawdownExceeded
        ((self.initial_capital - self.capital) / self.initial_capital) self.max_dd,
       self) := by
  simp only [trade]
  rw [if_neg (not_le.mpr h1), if_neg (fun hc => absurd hc.1 (not_le.mpr h2)),
      if_neg (not_le.mpr h3), if_pos h4]

/-- Witness for the amended C4 at the spec's own §8 scenario
(initial capital 1000, capital 940, nothing earned today). -/
theorem trade_drawdown_exceeded_no_mutation_witness :
    exStateC4W.trades_today < exStateC4W.max_trades_daily ∧
    (if exStateC4W.capital > 0 then exStateC4W.daily_profit / exStateC4W.capital else 0) <
      exStateC4W.target_return ∧
    (if exStateC4W.capital > 0 then exStateC4W.daily_profit / exStateC4W.capital else 0) <
      exStateC4W.max_target_return ∧
    (exStateC4W.initial_capital - exStateC4W.capital) / exStateC4W.initial_capital >
      exStateC4W.max_dd ∧
    trade exStateC4W exSignalOK 0 0.015 "t" =
      (TradeResult.drawdownExceeded
        ((exStateC4W.initial_capital - exStateC4W.capital) / exStateC4W.initial_capital)
        exStateC4W.max_dd, exStateC4W) :=
  ⟨by decide, by norm_num [exStateC4W, StandardBot.init],
   by norm_num [exStateC4W, StandardBot.init],
   by norm_num [exStateC4W, StandardBot.init],
   trade_drawdown_exceeded_no_mutation exStateC4W exSignalOK 0 0.015 "t"
     (by decide) (by norm_num [exStateC4W, StandardBot.init])
     (by norm_num [exStateC4W, StandardBot.init])
     (by norm_num [exStateC4W, StandardBot.init])⟩

/-- Claim C6: after one `reset_daily_stats`, `daily_profit` and
`trades_today` are 0 unconditionally (even when capital ≤ 0); a second call
with no trades in between keeps them 0 and appends at most one further
`daily_pnl_history` entry — appended exactly when capital > 0, and then
with return 0 (and profit 0, trade count 0). -/
theorem reset_daily_stats_idempotent (self : StandardBot) (d1 d2 : String) :
    (reset_daily_stats self d1).daily_profit = 0 ∧
    (reset_daily_stats self d1).trades_today = 0 ∧
    (reset_daily_stats (reset_daily_stats self d1) d2).daily_profit = 0 ∧
    (reset_daily_stats (reset_daily_stats self d1) d2).trades_today = 0 ∧
    (reset_daily_stats (reset_daily_stats self d1) d2).daily_pnl_history =
      (if (reset_daily_stats self d1).capital > 0 then
        (reset_daily_stats self d1).daily_pnl_history ++
          [{ date := d2, ret := 0, profit := 0, trades := 0 }]
      else (reset_daily_stats self d1).daily_pnl_history) ∧
    (reset_daily_stats (reset_daily_stats self d1) d2).daily_pnl_history.length ≤
      (reset_daily_stats self d1).daily_pnl_history.length + 1 := by
  by_cases hc : self.capital > 0 <;>
    simp [reset_daily_stats, hc, zero_div]

/-- Claim C8: over an empty `trade_history`, `get_status` reports a win
rate of 0 (no division failure — the guard returns 0); over a non-empty
history it reports the number of WIN records among the last 30 (or fewer)
entries divided by the size of that window.  `get_status` is a pure read:
it is a function of the bot record and returns no updated record. -/
theorem get_status_win_rate_safe (self : StandardBot) :
    (self.trade_history = [] → (get_status self).win_rate = 0) ∧
    (self.trade_history ≠ [] →
      (get_status self).win_rate =
        (((self.trade_history.drop (self.trade_history.length - 30)).countP
            (fun t => t.ttype = TradeType.WIN) : ℕ) : ℚ) /
          ((min 30 self.trade_history.length : ℕ) : ℚ)) := by
  constructor
  · intro h
    simp [get_status, h]
  · intro h
    unfold get_status
    by_cases h30 : self.trade_history.length ≥ 30
    · have hlen : (self.trade_history.drop (self.trade_history.length - 30)).length = 30 := by
        rw [List.length_drop]; omega
      have hne : self.trade_history.drop (self.trade_history.length - 30) ≠ [] := by
        intro hnil
        rw [hnil] at hlen
        simp at hlen
      have hmin : min 30 self.trade_history.length = 30 := by omega
      simp only [if_pos h30, if_pos hne, hmin, hlen, List.countP_eq_length_filter]
    · have hdrop : self.trade_history.length - 30 = 0 := by omega
      have hmin : min 30 self.trade_history.length = self.trade_history.length := by omega
      simp only [if_neg h30, if_pos h, hdrop, List.drop_zero, hmin,
        List.countP_eq_length_filter]

/-- Witness for C8: a fresh bot reports win rate 0; a bot whose history is
one WIN and one LOSS reports win rate 1/2. -/
theorem get_status_win_rate_safe_witness :
    (get_status exStateC8a).win_rate = 0 ∧
    (get_status exStateC8b).win_rate =
      (((exStateC8b.trade_history.drop (exStateC8b.trade_history.length - 30)).countP
          (fun t => t.ttype = TradeType.WIN) : ℕ) : ℚ) /
        ((min 30 exStateC8b.trade_history.length : ℕ) : ℚ) :=
  ⟨(get_status_win_rate_safe exStateC8a).1 rfl,
   (get_status_win_rate_safe exStateC8b).2 (by decide)⟩

/-- Counterexample to claim C9 as stated: constructing a bot with the
non-positive starting capital -1 does not fail — `__init__` performs no
validation and simply stores the value in `capital`, `initial_capital` and
`peak_capital`. -/
theorem init_accepts_nonpositive_capital :
    (StandardBot.init (-1) {}).capital = -1 ∧
    (StandardBot.init (-1) {}).initial_capital = -1 ∧
    (StandardBot.init (-1) {}).peak_capital = -1 ∧
    (StandardBot.init (-1) {}).trade_history = [] :=
  ⟨rfl, rfl, rfl, rfl⟩

/-- Claim C9 as amended: construction never fails; for every starting
capital (positive or not) it succeeds, with `capital`, `initial_capital`
and `peak_capital` all equal to the given amount, the documented option
defaults, zeroed counters and empty histories. -/
theorem init_fields (capital : ℚ) :
    (StandardBot.init capital {}).capital = capital ∧
    (StandardBot.init capital {}).initial_capital = capital ∧
    (StandardBot.init capital {}).peak_capital = capital ∧
    (StandardBot.init capital {}).target_return = 0.02 ∧
    (StandardBot.init capital {}).max_target_return = 0.05 ∧
    (StandardBot.init capital {}).max_dd = 0.05 ∧
    (StandardBot.init capital {}).stop_loss = 0.01 ∧
    (StandardBot.init capital {}).max_risk_per_trade = 0.03 ∧
    (StandardBot.init capital {}).max_trades_daily = 12 ∧
    (StandardBot.init capital {}).use_ai_sizing = true ∧
    (StandardBot.init capital {}).confidence_threshold = 0.65 ∧
    (StandardBot.init capital {}).regime_adaptation = true ∧
    (StandardBot.init capital {}).daily_profit = 0 ∧
    (StandardBot.init capital {}).trades_today = 0 ∧
    (StandardBot.init capital {}).trade_history = [] ∧
    (StandardBot.init capital {}).daily_pnl_history = [] ∧
    (StandardBot.init capital {}).best_daily_return = 0 ∧
    (StandardBot.init capital {}).worst_daily_return = 0 ∧
    (StandardBot.init capital {}).emergency_stop_dd = 0.045 ∧
    (StandardBot.init capital {}).size_reduction_dd = 0.035 := by
  repeat' constructor

/-- Claim C10: two signals that differ only in the `momentum` field produce
the same filter verdict, the same position size, and the same `trade`
result and state update, for every state and every random draw — the source
reads `momentum` into a local variable and never uses it. -/
theorem trade_ignores_momentum (self : StandardBot) (signal : Signal) (m : Option ℚ)
    (rand uwin : ℚ) (now : String) :
    check_trade_conditions self { signal with momentum := m } =
      check_trade_conditions self signal ∧
    calculate_position_size self { signal with momentum := m } =
      calculate_position_size self signal ∧
    trade self { signal with momentum := m } rand uwin now =
      trade self signal rand uwin now :=
  ⟨rfl, rfl, rfl⟩

/-- Claim C5: `check_trade_conditions` returns true exactly when the seven
predicates of the spec hold — with score/trend thresholds from the regime
table when regime adaptation is enabled (falling back to 0.6/0.35 for
unknown regimes) and missing fields replaced by the documented defaults —
and it reads none of the bot's mutable state: changing capital, profits,
counters, histories or peak capital leaves its verdict unchanged (it is a
pure function of the signal and the two configuration fields
`confidence_threshold` and `regime_adaptation`; side effects are impossible
by construction, as it returns only a `Bool`). -/
theorem check_trade_conditions_iff_spec (self : StandardBot) (signal : Signal)
    (capital initial_capital daily_profit : ℚ) (trades_today : ℕ)
    (th : List TradeRecord) (ph : List DailyRecord) (bd wd pk : ℚ) :
    (check_trade_conditions self signal = true ↔ spec_filter_conditions self signal) ∧
    check_trade_conditions
      { self with capital := capital, initial_capital := initial_capital,
                  daily_profit := daily_profit, trades_today := trades_today,
                  trade_history := th, daily_pnl_history := ph,
                  best_daily_return := bd, worst_daily_return := wd,
                  peak_capital := pk } signal = check_trade_conditions self signal := by
  refine ⟨?_, rfl⟩
  unfold check_trade_conditions spec_filter_conditions regime_requirements
    spec_min_score spec_min_trend
  by_cases hr : self.regime_adaptation <;>
    simp only [hr, Bool.and_eq_true, decide_eq_true_eq, if_true, if_false,
      Bool.false_eq_true, ite_true, ite_false] <;>
    first | tauto | (split_ifs <;> tauto)

theorem regime_profit_bonus_pos (regime : String) : 0 < regime_profit_bonus regime := by
  unfold regime_profit_bonus
  split_ifs <;> norm_num

theorem regime_loss_adj_pos (regime : String) : 0 < regime_loss_adj regime := by
  unfold regime_loss_adj
  split_ifs <;> norm_num

/-- A signal that passes the filter carries an `ai_confidence` of at least
the configured threshold (the fifth conjunct of the filter). -/
theorem check_trade_conditions_confidence {self : StandardBot} {signal : Signal}
    (h : check_trade_conditions self signal = true) :
    self.confidence_threshold ≤ signal.ai_confidence.getD 0.5 := by
  unfold check_trade_conditions at h
  simp only [Bool.and_eq_true, decide_eq_true_eq] at h
  exact h.1.1.2

/-- One `trade` step preserves the peak-capital invariant, given the
configuration constraints and the range of the `uniform(0.015, 0.035)` draw. -/
theorem trade_preserves_peakInvariant {c₀ : ℚ} {kwargs : Config} {self : StandardBot}
    (signal : Signal) {rand uwin : ℚ} (now : String)
    (hsl : 0 ≤ kwargs.stop_loss) (hct : (1/2 : ℚ) ≤ kwargs.confidence_threshold)
    (hu1 : (0.015 : ℚ) ≤ uwin)
    (hinv : PeakInvariant c₀ kwargs self) :
    PeakInvariant c₀ kwargs (trade self signal rand uwin now).2 := by
  obtain ⟨hsl', hct', hic, hcap, hcp, hc₀p⟩ := hinv
  have hps := position_size_clamped self signal hcap
  have hps0 : 0 ≤ calculate_position_size self signal := le_trans (by nlinarith) hps.1
  simp only [trade]
  set dr := (if self.capital > 0 then self.daily_profit / self.capital else 0) with hdr
  split_ifs with g1 g2 g3 g4 g5 g6 g7
  · exact ⟨hsl', hct', hic, hcap, hcp, hc₀p⟩
  · exact ⟨hsl', hct', hic, hcap, hcp, hc₀p⟩
  · exact ⟨hsl', hct', hic, hcap, hcp, hc₀p⟩
  · exact ⟨hsl', hct', hic, hcap, hcp, hc₀p⟩
  -- winning branch, new peak (g5 : filter passed, g6 : rand < success_prob,
  -- g7 : updated capital exceeds the old peak)
  · have hcf : self.confidence_threshold ≤ signal.ai_confidence.getD 0.5 :=
      check_trade_conditions_confidence g5
    have hpct : 0 ≤ min 0.045 (uwin * (1 + (signal.ai_confidence.getD 0.5 - 0.5) * 0.2) *
        regime_profit_bonus (signal.regime.getD "unknown")) := by
      have hb : (0:ℚ) ≤ 1 + (signal.ai_confidence.getD 0.5 - 0.5) * 0.2 := by
        rw [hct'] at hcf
        nlinarith
      have := regime_profit_bonus_pos (signal.regime.getD "unknown")
      exact le_min (by norm_num)
        (mul_nonneg (mul_nonneg (le_trans (by norm_num) hu1) hb) this.le)
    have hprofit : 0 ≤ calculate_position_size self signal *
        min 0.045 (uwin * (1 + (signal.ai_confidence.getD 0.5 - 0.5) * 0.2) *
          regime_profit_bonus (signal.regime.getD "unknown")) :=
      mul_nonneg hps0 hpct
    exact ⟨hsl', hct', hic, by linarith, le_refl _, by linarith⟩
  -- winning branch, peak unchanged
  · have hcf : self.confidence_threshold ≤ signal.ai_confidence.getD 0.5 :=
      check_trade_conditions_confidence g5
    have hpct : 0 ≤ min 0.045 (uwin * (1 + (signal.ai_confidence.getD 0.5 - 0.5) * 0.2) *
        regime_profit_bonus (signal.regime.getD "unknown")) := by
      have hb : (0:ℚ) ≤ 1 + (signal.ai_confidence.getD 0.5 - 0.5) * 0.2 := by
        rw [hct'] at hcf
        nlinarith
      have := regime_profit_bonus_pos (signal.regime.getD "unknown")
      exact le_min (by norm_num)
        (mul_nonneg (mul_nonneg (le_trans (by norm_num) hu1) hb) this.le)
    have hprofit : 0 ≤ calculate_position_size self signal *
        min 0.045 (uwin * (1 + (signal.ai_confidence.getD 0.5 - 0.5) * 0.2) *
          regime_profit_bonus (signal.regime.getD "unknown")) :=
      mul_nonneg hps0 hpct
    exact ⟨hsl', hct', hic, by linarith, not_lt.mp g7, hc₀p⟩
  -- losing branch
  · have hpct0 : 0 ≤ min 0.025 (self.stop_loss *
        regime_loss_adj (signal.regime.getD "unknown")) := by
      have := regime_loss_adj_pos (signal.regime.getD "unknown")
      have hsl0 : 0 ≤ self.stop_loss := hsl' ▸ hsl
      exact le_min (by norm_num) (mul_nonneg hsl0 this.le)
    have hpct1 : min 0.025 (self.stop_loss *
        regime_loss_adj (signal.regime.getD "unknown")) ≤ 0.025 := min_le_left _ _
    have hloss : 0 ≤ calculate_position_size self signal *
        min 0.025 (self.stop_loss * regime_loss_adj (signal.regime.getD "unknown")) :=
      mul_nonneg hps0 hpct0
    have hlossub : calculate_position_size self signal *
        min 0.025 (self.stop_loss * regime_loss_adj (signal.regime.getD "unknown")) ≤
        self.capital * 0.04 * 0.025 :=
      mul_le_mul hps.2 hpct1 hpct0 (by nlinarith)
    exact ⟨hsl', hct', hic, by nlinarith, by linarith, hc₀p⟩
  -- filters not met
  · exact ⟨hsl', hct', hic, hcap, hcp, hc₀p⟩

/-- `reset_daily_stats` leaves capital, peak capital and all configuration
fields untouched, so it preserves the peak-capital invariant. -/
theorem reset_preserves_peakInvariant {c₀ : ℚ} {kwargs : Config} {self : StandardBot}
    (today : String) (hinv : PeakInvariant c₀ kwargs self) :
    PeakInvariant c₀ kwargs (reset_daily_stats self today) := by
  obtain ⟨hsl', hct', hic, hcap, hcp, hc₀p⟩ := hinv
  simp only [reset_daily_stats, PeakInvariant]
  by_cases hc : self.capital > 0
  · rw [if_pos hc]
    exact ⟨hsl', hct', hic, hcap, hcp, hc₀p⟩
  · rw [if_neg hc]
    exact ⟨hsl', hct', hic, hcap, hcp, hc₀p⟩

/-- Every state reachable from a construction with positive capital, a
non-negative `stop_loss` and a confidence threshold of at least 0.5
satisfies the peak-capital invariant. -/
theorem reachable_peakInvariant {c₀ : ℚ} {kwargs : Config} {self : StandardBot}
    (hc₀ : 0 < c₀) (hsl : 0 ≤ kwargs.stop_loss)
    (hct : (1/2 : ℚ) ≤ kwargs.confidence_threshold)
    (h : Reachable c₀ kwargs self) : PeakInvariant c₀ kwargs self := by
  induction h with
  | construct => exact ⟨rfl, rfl, rfl, hc₀, le_refl _, le_refl _⟩
  | trade_step signal now hr h0 h1 hu1 hu2 ih =>
      exact trade_preserves_peakInvariant signal now hsl hct hu1 ih
  | reset_step today hr ih => exact reset_preserves_peakInvariant today ih

/-- `trade` never decreases `peak_capital`, in any state. -/
theorem trade_peak_mono (self : StandardBot) (signal : Signal) (rand uwin : ℚ)
    (now : String) :
    self.peak_capital ≤ ((trade self signal rand uwin now).2).peak_capital := by
  simp only [trade]
  set dr := (if self.capital > 0 then self.daily_profit / self.capital else 0) with hdr
  split_ifs with g1 g2 g3 g4 g5 g6 g7
  · exact le_refl _
  · exact le_refl _
  · exact le_refl _
  · exact le_refl _
  · exact le_of_lt g7
  · exact le_refl _
  · exact le_refl _
  · exact le_refl _

/-- `reset_daily_stats` never changes `peak_capital`, in any state. -/
theorem reset_peak_eq (self : StandardBot) (today : String) :
    (reset_daily_stats self today).peak_capital = self.peak_capital := by
  unfold reset_daily_stats
  by_cases hc : self.capital > 0 <;> simp [hc]

/-- When a `trade` call changes `peak_capital` at all, the call executed a
winning trade (its result is the WIN report). -/
theorem trade_peak_changed_win (self : StandardBot) (signal : Signal) (rand uwin : ℚ)
    (now : String)
    (h : ((trade self signal rand uwin now).2).peak_capital ≠ self.peak_capital) :
    ∃ p pct c d, (trade self signal rand uwin now).1 = TradeResult.win p pct c d := by
  simp only [trade] at h ⊢
  set dr := (if self.capital > 0 then self.daily_profit / self.capital else 0) with hdr
  split_ifs at h ⊢ with g1 g2 g3 g4 g5 g6 g7
  · exact absurd rfl h
  · exact absurd rfl h
  · exact absurd rfl h
  · exact absurd rfl h
  · exact ⟨_, _, _, _, rfl⟩
  · exact ⟨_, _, _, _, rfl⟩
  · exact absurd rfl h
  · exact absurd rfl h

/-- Claim C7: in every state reachable from a construction with positive
starting capital and sane options (non-negative `stop_loss`, confidence
threshold at least 0.5 — the defaults are 0.01 and 0.65), `peak_capital`
dominates both `capital` and the starting capital; moreover `peak_capital`
is non-decreasing across `trade` and unchanged by `reset_daily_stats`
(`get_status` returns no state at all), and whenever a `trade` call changes
`peak_capital`, that call executed a winning trade. -/
theorem peak_capital_high_water_mark (c₀ : ℚ) (kwargs : Config) (self : StandardBot)
    (hc₀ : 0 < c₀) (hsl : 0 ≤ kwargs.stop_loss)
    (hct : (1/2 : ℚ) ≤ kwargs.confidence_threshold)
    (h : Reachable c₀ kwargs self) :
    (self.capital ≤ self.peak_capital ∧ self.initial_capital ≤ self.peak_capital) ∧
    (∀ (signal : Signal) (rand uwin : ℚ) (now : String),
      self.peak_capital ≤ ((trade self signal rand uwin now).2).peak_capital) ∧
    (∀ today : String, (reset_daily_stats self today).peak_capital = self.peak_capital) ∧
    (∀ (signal : Signal) (rand uwin : ℚ) (now : String),
      ((trade self signal rand uwin now).2).peak_capital ≠ self.peak_capital →
        ∃ p pct c d, (trade self signal rand uwin now).1 = TradeResult.win p pct c d) := by
  obtain ⟨hsl', hct', hic, hcap, hcp, hc₀p⟩ := reachable_peakInvariant hc₀ hsl hct h
  refine ⟨⟨hcp, ?_⟩, fun signal rand uwin now => trade_peak_mono self signal rand uwin now,
    fun today => reset_peak_eq self today,
    fun signal rand uwin now hch => trade_peak_changed_win self signal rand uwin now hch⟩
  rw [hic]
  exact hc₀p

/-- Witness for C7: the freshly constructed default bot with capital 10000. -/
theorem peak_capital_high_water_mark_witness :
    (0:ℚ) < 10000 ∧ (0:ℚ) ≤ ({} : Config).stop_loss ∧
    (1/2 : ℚ) ≤ ({} : Config).confidence_threshold ∧
    ((StandardBot.init 10000 {}).capital ≤ (StandardBot.init 10000 {}).peak_capital ∧
     (StandardBot.init 10000 {}).initial_capital ≤ (StandardBot.init 10000 {}).peak_capital) :=
  ⟨by norm_num, by show (0:ℚ) ≤ 0.01; norm_num,
   by show (1/2:ℚ) ≤ 0.65; norm_num,
   (peak_capital_high_water_mark 10000 {} (StandardBot.init 10000 {})
     (by norm_num) (by show (0:ℚ) ≤ 0.01; norm_num)
     (by show (1/2:ℚ) ≤ 0.65; norm_num) Reachable.construct).1⟩

end GptStrategies
